import Mathlib

/-!
# Verification of the chatty real-time chat core

Shallow embedding of the repository's message/chat synchronization core:
the Mongoose `Message` and `Chat` model methods, the Express message/chat
route handlers, the Socket.IO server event handlers, and the React Native
client's socket service and chat-screen event wiring.  Identifiers
(`ObjectId`s in the source) are modelled as `Nat`; all source-level
comparisons are `toString()` equality, which this embedding renders as
equality of those `Nat` ids.  Mongoose `Map` fields are modelled as
association lists with JavaScript `Map.get`/`Map.set`/`Map.delete`
semantics.  Each `document.save()` is modelled as one atomic persistence
operation on the store.
-/

namespace Chatty

abbrev UserId := Nat
abbrev ChatId := Nat
abbrev MessageId := Nat
abbrev ConnId := Nat

/-! ## JavaScript `Map` semantics over association lists -/

/-- `map.get(k)`: the first binding for `k`, if any. -/
def mapGet {κ α : Type} [BEq κ] (m : List (κ × α)) (k : κ) : Option α :=
  match m.find? (fun p => p.1 == k) with
  | some p => some p.2
  | none => none

/-- `map.get(k) || d`: lookup with a default for a missing key. -/
def mapGetD {κ α : Type} [BEq κ] (m : List (κ × α)) (k : κ) (d : α) : α :=
  (mapGet m k).getD d

/-- `map.set(k, v)`: replace the binding for `k`, or append one. -/
def mapSet {κ α : Type} [BEq κ] (m : List (κ × α)) (k : κ) (v : α) :
    List (κ × α) :=
  match m with
  | [] => [(k, v)]
  | p :: rest => if p.1 == k then (k, v) :: rest else p :: mapSet rest k v

/-- `map.delete(k)`: drop every binding for `k`. -/
def mapDelete {κ α : Type} [BEq κ] (m : List (κ × α)) (k : κ) :
    List (κ × α) :=
  m.filter (fun p => !(p.1 == k))

/-! ## Message model (`models/Message.js`) -/

/-- One entry of a message's `reactions` array. -/
structure Reaction where
  user : UserId
  emoji : String
  createdAt : Nat
  deriving DecidableEq, Repr

/-- One entry of a message's `readBy` array. -/
structure ReadEntry where
  user : UserId
  readAt : Nat
  deriving DecidableEq, Repr

/-- The persisted message document: identity is `id`; `content`,
`isEdited`, `isDeleted`, `reactions` and `readBy` are its mutable
fields. -/
structure Message where
  id : MessageId
  chat : ChatId
  sender : UserId
  content : String
  isEdited : Bool := false
  editedAt : Option Nat := none
  isDeleted : Bool := false
  deletedAt : Option Nat := none
  deletedBy : Option UserId := none
  reactions : List Reaction := []
  readBy : List ReadEntry := []
  deriving DecidableEq, Repr

/-- `messageSchema.methods.editMessage(newContent)`: overwrite the content
and stamp the edited flag and time. -/
def editMessage (m : Message) (newContent : String) (t : Nat) : Message :=
  { m with content := newContent, isEdited := true, editedAt := some t }

/-- `messageSchema.methods.softDelete(userId)`: set the deleted flag,
time and author. -/
def softDelete (m : Message) (userId : UserId) (t : Nat) : Message :=
  { m with isDeleted := true, deletedAt := some t, deletedBy := some userId }

/-- `messageSchema.methods.addReaction(userId, emoji)`: remove any
existing reaction from this user, then push the new one. -/
def addReaction (m : Message) (userId : UserId) (emoji : String) (t : Nat) :
    Message :=
  { m with reactions :=
      m.reactions.filter (fun r => !(r.user == userId)) ++
        [{ user := userId, emoji := emoji, createdAt := t }] }

/-- `messageSchema.methods.removeReaction(userId)`: keep only the other
users' reactions. -/
def removeReaction (m : Message) (userId : UserId) : Message :=
  { m with reactions := m.reactions.filter (fun r => !(r.user == userId)) }

/-- JavaScript `String.prototype.trim`, written over the character list so
that it evaluates inside the kernel. -/
def strTrim (s : String) : String :=
  String.mk
    (((s.toList.dropWhile Char.isWhitespace).reverse.dropWhile
        Char.isWhitespace).reverse)

/-! ## Chat model (`models/Chat.js`) -/

inductive ChatType
  | individual
  | group
  deriving DecidableEq, Repr

/-- The persisted chat document.  The source's participant subdocuments
`{user, role, joinedAt, isActive}` are reduced to their `user` ids, the
only field the handlers under verification read; the `admins` array is
kept separately as in the source.  `unreadCount` is the schema's
`Map` of `userId.toString()` to a number. -/
structure Chat where
  id : ChatId
  ctype : ChatType
  participants : List UserId
  admins : List UserId := []
  unreadCount : List (UserId × Nat) := []
  isActive : Bool := true
  onlyAdminsCanSendMessages : Bool := false
  deriving DecidableEq, Repr

/-- `chatSchema.methods.incrementUnreadCount(userId)`:
`set(userId, (get(userId) || 0) + 1)`, then save. -/
def incrementUnreadCount (c : Chat) (userId : UserId) : Chat :=
  { c with unreadCount :=
      mapSet c.unreadCount userId (mapGetD c.unreadCount userId 0 + 1) }

/-- `chatSchema.methods.resetUnreadCount(userId)`: `set(userId, 0)`,
then save. -/
def resetUnreadCount (c : Chat) (userId : UserId) : Chat :=
  { c with unreadCount := mapSet c.unreadCount userId 0 }

/-! ## Persistence store and operations -/

/-- The persisted state the message routes read and write. -/
structure ChatDB where
  messages : List Message
  chats : List Chat
  deriving DecidableEq, Repr

/-- One `document.save()` issued by a route handler: either the insert
performed by `new Message(...).save()` or the full-document write
performed by a `chat.save()`. -/
inductive PersistOp
  | createMessage (m : Message)
  | saveChat (c : Chat)
  deriving DecidableEq, Repr

/-- Apply one persistence operation to the store.  A chat save writes the
document over the stored chat with the same id. -/
def applyOp (db : ChatDB) (op : PersistOp) : ChatDB :=
  match op with
  | .createMessage m => { db with messages := db.messages ++ [m] }
  | .saveChat c =>
      { db with chats := db.chats.map (fun c' => if c'.id == c.id then c else c') }

/-- Events the server emits to a chat's room or broadcasts. -/
inductive ServerEvent
  | newMessage (chatId : ChatId) (messageId : MessageId) (sender : UserId) (t : Nat)
  | messagesRead (chatId : ChatId) (userId : UserId) (t : Nat)
  | userStatusChange (userId : UserId) (online : Bool)
  deriving DecidableEq, Repr

/-! ## Send-message route (`routes/messages.js`, POST /:chatId) -/

inductive SendError
  | validationError
  | chatNotFound
  | accessDenied
  | chatInactive
  | adminsOnly
  deriving DecidableEq, Repr

/-- What a successful send leaves behind: the ordered list of persistence
operations the handler awaited, and the socket events it emitted. -/
structure SendOutcome where
  ops : List PersistOp
  emitted : List ServerEvent
  deriving DecidableEq, Repr

/-- The `for (const participant of otherParticipants) await
chat.incrementUnreadCount(...)` loop: each iteration increments the
in-memory chat document and saves it, so the trace holds one
`saveChat` per recipient, each persisting the partially incremented
document.  Returns the trace and the final in-memory document. -/
def incrementSaves (chat : Chat) (recipients : List UserId) :
    List PersistOp × Chat :=
  match recipients with
  | [] => ([], chat)
  | p :: rest =>
      (PersistOp.saveChat (incrementUnreadCount chat p)
          :: (incrementSaves (incrementUnreadCount chat p) rest).1,
       (incrementSaves (incrementUnreadCount chat p) rest).2)

/-- POST /api/messages/:chatId: validate, check the chat exists, that the
sender is a participant, that the chat is active and (for groups with the
restriction) that the sender is an admin; then save the new message,
increment every other participant's unread counter, and emit
`new-message` to the chat's room via `io.to(chatId)`.  The
express-validator `.trim()` sanitizer runs before the handler, so
`content` here is the sanitized body field.  The media-upload, `replyTo`
and `location` variants are elided: they do not alter the persistence or
broadcast behaviour under verification. -/
def sendMessageRoute (db : ChatDB) (sender : UserId) (chatId : ChatId)
    (content : String) (newId : MessageId) (t : Nat) :
    Except SendError SendOutcome :=
  if !(1 ≤ content.length && content.length ≤ 5000) then
    .error .validationError
  else
    match db.chats.find? (fun c => c.id == chatId) with
    | none => .error .chatNotFound
    | some chat =>
      if !(chat.participants.contains sender) then .error .accessDenied
      else if !chat.isActive then .error .chatInactive
      else if chat.ctype == ChatType.group && chat.onlyAdminsCanSendMessages
          && !(chat.admins.contains sender) then .error .adminsOnly
      else
        Except.ok
          { ops := PersistOp.createMessage
                { id := newId, chat := chatId, sender := sender, content := content }
              :: (incrementSaves chat
                    (chat.participants.filter (fun p => !(p == sender)))).1,
            emitted := [ServerEvent.newMessage chatId newId sender t] }

/-- The persistence trace of a send, or `[]` on an error response. -/
def opsOf (r : Except SendError SendOutcome) : List PersistOp :=
  match r with
  | .ok o => o.ops
  | .error _ => []

/-- Modelled from the spec's words: the counter update happens "as part
of the same persistence transaction that creates the MessageEnvelope",
i.e. the handler issues one single atomic persistence operation covering
the message insert and every counter increment. -/
def isSingleTransaction (ops : List PersistOp) : Bool :=
  ops.length == 1

/-! ## Read route (`routes/messages.js`, GET /:chatId) -/

inductive ReadError
  | chatNotFound
  | accessDenied
  deriving DecidableEq, Repr

/-- `Message.markChatAsRead(chatId, userId)`: `updateMany` pushing a
`readBy` entry onto every message of the chat that was sent by someone
else, is not deleted, and does not already carry this user's entry. -/
def markChatAsRead (msgs : List Message) (chatId : ChatId) (userId : UserId)
    (t : Nat) : List Message :=
  msgs.map (fun m =>
    if m.chat == chatId && !(m.sender == userId) && !m.isDeleted
        && !(m.readBy.any (fun r => r.user == userId)) then
      { m with readBy := m.readBy ++ [{ user := userId, readAt := t }] }
    else m)

/-- GET /api/messages/:chatId: check the chat exists and the requester is
a participant, then mark the chat's messages read, reset the requester's
unread counter on the chat document, and emit `messages-read` to the
chat's room.  The paginated `getChatMessages` fetch is read-only and is
elided. -/
def getMessagesRoute (db : ChatDB) (userId : UserId) (chatId : ChatId)
    (t : Nat) : Except ReadError (ChatDB × List ServerEvent) :=
  match db.chats.find? (fun c => c.id == chatId) with
  | none => .error .chatNotFound
  | some chat =>
    if !(chat.participants.contains userId) then .error .accessDenied
    else
      .ok ({ messages := markChatAsRead db.messages chatId userId t,
             chats := db.chats.map
               (fun c => if c.id == chatId then resetUnreadCount c userId else c) },
           [ServerEvent.messagesRead chatId userId t])

/-! ## Edit and delete routes (`routes/messages.js`, PUT/DELETE /:messageId) -/

inductive EditError
  | emptyContent
  | notSender
  | messageDeletedConflict
  deriving DecidableEq, Repr

/-- PUT /api/messages/:messageId applied to the fetched message: reject
empty content, reject a requester other than the sender, reject a
soft-deleted message (the 400 "Cannot edit deleted message" response),
else apply `editMessage(content.trim())`. -/
def editMessageRequest (m : Message) (requester : UserId) (content : String)
    (t : Nat) : Except EditError Message :=
  if (strTrim content).length == 0 then .error .emptyContent
  else if !(m.sender == requester) then .error .notSender
  else if m.isDeleted then .error .messageDeletedConflict
  else .ok (editMessage m (strTrim content) t)

inductive DeleteError
  | forbidden
  | alreadyDeleted
  deriving DecidableEq, Repr

/-- DELETE /api/messages/:messageId applied to the fetched message and
its chat: only the sender, or a group admin, may delete; an already
deleted message is rejected; else apply `softDelete(requester)`. -/
def deleteMessageRequest (m : Message) (chat : Chat) (requester : UserId)
    (t : Nat) : Except DeleteError Message :=
  let isSender := m.sender == requester
  let isAdmin := chat.ctype == ChatType.group && chat.admins.contains requester
  if !(isSender || isAdmin) then .error .forbidden
  else if m.isDeleted then .error .alreadyDeleted
  else .ok (softDelete m requester t)

/-! ## Socket.IO server handlers (`server.js`) -/

/-- Server-side view of one socket connection: the identity the
`authenticate` handler bound to it (`socket.userId`, absent until a
token verifies) and the rooms it has joined. -/
structure ServerConn where
  userId : Option UserId := none
  rooms : List ChatId := []
  deriving DecidableEq, Repr

/-- `socket.join(room)`: idempotent add to the connection's room set. -/
def socketJoin (s : ServerConn) (c : ChatId) : ServerConn :=
  if s.rooms.contains c then s else { s with rooms := s.rooms ++ [c] }

/-- The `join-chat` handler (server.js 92-95): `socket.join(chatId)`
unconditionally — there is no authentication check and no error path. -/
def joinChatHandler (s : ServerConn) (c : ChatId) : ServerConn :=
  socketJoin s c

/-- The `leave-chat` handler (server.js 98-101): `socket.leave(chatId)`. -/
def leaveChatHandler (s : ServerConn) (c : ChatId) : ServerConn :=
  { s with rooms := s.rooms.filter (fun r => !(r == c)) }

/-- The connections currently subscribed to a chat's room. -/
def roomMembers (conns : List (ConnId × ServerConn)) (chatId : ChatId) :
    List ConnId :=
  (conns.filter (fun p => p.2.rooms.contains chatId)).map Prod.fst

/-- `io.to(chatId).emit(...)`: every subscribed connection receives the
event. -/
def ioToRecipients (conns : List (ConnId × ServerConn)) (chatId : ChatId) :
    List ConnId :=
  roomMembers conns chatId

/-- `socket.to(chatId).emit(...)`: every subscribed connection except the
emitting socket receives the event. -/
def socketToRecipients (conns : List (ConnId × ServerConn)) (chatId : ChatId)
    (emitter : ConnId) : List ConnId :=
  (roomMembers conns chatId).filter (fun c => !(c == emitter))

/-- Audience of the `new-message` emit in the `send-message` socket
handler (server.js 104-113), which uses `socket.to(chatId)`. -/
def sendMessageSocketRecipients (conns : List (ConnId × ServerConn))
    (emitter : ConnId) (chatId : ChatId) : List ConnId :=
  socketToRecipients conns chatId emitter

/-- Audience of the `new-message` emit in the POST /api/messages/:chatId
handler (routes/messages.js 289-298), which uses `io.to(chatId)`. -/
def sendMessageRouteRecipients (conns : List (ConnId × ServerConn))
    (chatId : ChatId) : List ConnId :=
  ioToRecipients conns chatId

/-- The `authenticate` handler (server.js 79-89): when the token verifies
to a user id, `connectedUsers.set(userId, socket.id)` and
`socket.userId = userId`; on an invalid token the catch block only logs
and both are left unchanged.  `decoded` is the outcome of the delegated
`jwt.verify`. -/
def authenticateHandler (connectedUsers : List (UserId × ConnId))
    (sockUserId : Option UserId) (decoded : Option UserId) (connId : ConnId) :
    List (UserId × ConnId) × Option UserId :=
  match decoded with
  | some u => (mapSet connectedUsers u connId, some u)
  | none => (connectedUsers, sockUserId)

/-- The `disconnect` handler (server.js 134-143): when the socket had
authenticated, `connectedUsers.delete(socket.userId)` and broadcast an
offline `user-status-change`; otherwise nothing. -/
def disconnectHandler (connectedUsers : List (UserId × ConnId))
    (sockUserId : Option UserId) :
    List (UserId × ConnId) × List ServerEvent :=
  match sockUserId with
  | some u => (mapDelete connectedUsers u, [ServerEvent.userStatusChange u false])
  | none => (connectedUsers, [])

/-! ## Client socket service (`src/services/socket.js`, backoff variant) -/

/-- Client-to-server events the socket service emits. -/
inductive ClientEvent
  | authenticate (token : String)
  | joinChat (chatId : ChatId)
  | leaveChat (chatId : ChatId)
  | sendMessage (chatId : ChatId)
  | typing (chatId : ChatId) (isTyping : Bool)
  | userOnline
  deriving DecidableEq, Repr

/-- The service's connection bookkeeping: `this.socket` presence,
`this.isConnected`, `this.reconnectAttempts` and the pending
`this.reconnectTimer` (carrying its delay in milliseconds). -/
structure SocketServiceState where
  socketPresent : Bool := false
  isConnected : Bool := false
  reconnectAttempts : Nat := 0
  reconnectTimer : Option Nat := none
  deriving DecidableEq, Repr

/-- `this.maxReconnectAttempts = 3`. -/
def maxReconnectAttempts : Nat := 3

/-- `this.reconnectDelay = 2000`. -/
def reconnectDelay : Nat := 2000

/-- The `connect` event handler (socket.js 46-62), run on entering the
connected state — including after a reconnect: set `isConnected`, reset
the attempt counter, clear any pending reconnect timer, and emit
`authenticate` with the stored token.  It emits nothing else; in
particular it emits no `join-chat`. -/
def onConnectHandler (s : SocketServiceState) (token : String) :
    SocketServiceState × List ClientEvent :=
  ({ s with isConnected := true, reconnectAttempts := 0, reconnectTimer := none },
   [ClientEvent.authenticate token])

/-- `scheduleReconnect` (socket.js 115-130): clear any pending timer; if
the attempt count is below the maximum, set a timer for
`reconnectDelay * 2 ^ reconnectAttempts` milliseconds; otherwise return
with nothing scheduled and nothing else changed. -/
def scheduleReconnect (s : SocketServiceState) : SocketServiceState :=
  let s := { s with reconnectTimer := none }
  if s.reconnectAttempts < maxReconnectAttempts then
    { s with reconnectTimer := some (reconnectDelay * 2 ^ s.reconnectAttempts) }
  else s

/-- `disconnect()` (socket.js 157-173): clear the pending timer, and if a
socket exists, disconnect and drop it. -/
def disconnectService (s : SocketServiceState) : SocketServiceState :=
  let s := { s with reconnectTimer := none }
  if s.socketPresent then { s with socketPresent := false, isConnected := false }
  else s

/-- The room set a fresh server-side connection ends up subscribed to
after the server processes a stream of this client's emits: `join-chat`
and `leave-chat` move room membership; no other event does. -/
def serverRoomsAfter (evts : List ClientEvent) : List ChatId :=
  (evts.foldl (fun conn e =>
    match e with
    | ClientEvent.joinChat c => joinChatHandler conn c
    | ClientEvent.leaveChat c => leaveChatHandler conn c
    | _ => conn) { userId := none, rooms := [] }).rooms

/-! ## Chat screen handler (`src/screens/ChatScreen.js`) -/

/-- A message item of the screen's `messages` state, as the handler
builds it. -/
structure ClientMessage where
  id : MessageId
  content : String
  fromCurrentUser : Bool
  createdAt : Nat
  msgType : String
  deriving DecidableEq, Repr

/-- The payload of a `new-message` socket event as the handler reads it:
`data.chatId` and the `data.message` fields. -/
structure NewMessageData where
  chatId : ChatId
  messageId : MessageId
  content : String
  sender : UserId
  createdAt : Nat
  msgType : String
  deriving DecidableEq, Repr

/-- `messageHandler` (ChatScreen.js 120-144): if the event is for this
screen's chat, format the payload and append it to the message list
(`setMessages(prev => [...prev, newMessage])`); otherwise ignore it.
The handler performs no duplicate check before appending. -/
def messageHandler (screenChatId : ChatId) (currentUser : UserId)
    (data : NewMessageData) (messages : List ClientMessage) :
    List ClientMessage :=
  if data.chatId == screenChatId then
    messages ++
      [{ id := data.messageId, content := data.content,
         fromCurrentUser := data.sender == currentUser,
         createdAt := data.createdAt, msgType := data.msgType }]
  else messages

/-! ## Concrete fixtures used by witnesses and counterexamples -/

/-- A two-party chat between users 5 and 6. -/
def exampleChat : Chat :=
  { id := 1, ctype := ChatType.individual, participants := [5, 6] }

/-- A store holding only `exampleChat` and no messages. -/
def exampleDB : ChatDB := { messages := [], chats := [exampleChat] }

/-- A two-party chat between users 5 and 6 with user 5's counter at 2. -/
def exampleReadChat : Chat :=
  { id := 1, ctype := ChatType.individual, participants := [5, 6],
    unreadCount := [(5, 2)] }

/-- A store with one message from user 6 in chat 1, unread by user 5. -/
def exampleReadDB : ChatDB :=
  { messages := [{ id := 3, chat := 1, sender := 6, content := "hello" }],
    chats := [exampleReadChat] }

/-- `exampleReadChat` after user 5's counter was reset to 0. -/
def exampleResetChat : Chat :=
  { id := 1, ctype := ChatType.individual, participants := [5, 6],
    unreadCount := [(5, 0)] }

/-- `exampleReadDB` after user 5 read chat 1 at time 10: the message
carries user 5's read marker and the counter is 0. -/
def exampleReadDB1 : ChatDB :=
  { messages := [{ id := 3, chat := 1, sender := 6, content := "hello",
                   readBy := [{ user := 5, readAt := 10 }] }],
    chats := [exampleResetChat] }

/-- A message from user 0 in chat 1 with its original content. -/
def exampleMessage : Message := { id := 1, chat := 1, sender := 0, content := "a" }

/-- A chat screen state already holding the envelope with id 1. -/
def exampleClientMessages : List ClientMessage :=
  [{ id := 1, content := "a", fromCurrentUser := true, createdAt := 0,
     msgType := "text" }]

/-- A `new-message` payload for chat 5 carrying the already-known id 1. -/
def exampleNewMessageData : NewMessageData :=
  { chatId := 5, messageId := 1, content := "a", sender := 0, createdAt := 0,
    msgType := "text" }

/-- Two connections, both subscribed to chat 1's room. -/
def exampleConns : List (ConnId × ServerConn) :=
  [(10, { userId := some 5, rooms := [1] }),
   (20, { userId := some 6, rooms := [1] })]

/-- A message carrying one reaction by user 7. -/
def exampleReactedMessage : Message :=
  { id := 2, chat := 1, sender := 6, content := "hi",
    reactions := [{ user := 7, emoji := "x", createdAt := 0 }] }

/-- `exampleChat` after user 6's counter is incremented once. -/
def exampleIncrementedChat : Chat :=
  { id := 1, ctype := ChatType.individual, participants := [5, 6],
    unreadCount := [(6, 1)] }

/-- The outcome of user 5 sending "hi" (new id 7, time 100) into
`exampleDB`'s chat 1. -/
def exampleSendOutcome : SendOutcome :=
  { ops := [PersistOp.createMessage { id := 7, chat := 1, sender := 5, content := "hi" },
            PersistOp.saveChat exampleIncrementedChat],
    emitted := [ServerEvent.newMessage 1 7 5 100] }

/-! ## Helper lemmas -/

theorem mapGet_cons {κ α : Type} [BEq κ] (p : κ × α) (rest : List (κ × α))
    (k : κ) : mapGet (p :: rest) k = if p.1 == k then some p.2 else mapGet rest k := by
  unfold mapGet
  cases h : p.1 == k <;> simp [List.find?, h]

theorem mapGet_mapSet_self {κ α : Type} [BEq κ] [LawfulBEq κ]
    (m : List (κ × α)) (k : κ) (v : α) : mapGet (mapSet m k v) k = some v := by
  induction m with
  | nil =>
      simp only [mapSet]
      rw [mapGet_cons]
      simp
  | cons p rest ih =>
      by_cases h : p.1 = k
      · simp only [mapSet, beq_iff_eq, h, if_true]
        rw [mapGet_cons]
        simp
      · simp only [mapSet, beq_iff_eq, h, if_false]
        rw [mapGet_cons, if_neg (by simpa using h)]
        exact ih

theorem mapGet_mapSet_ne {κ α : Type} [BEq κ] [LawfulBEq κ]
    (m : List (κ × α)) (k k' : κ) (v : α) (h : k ≠ k') :
    mapGet (mapSet m k v) k' = mapGet m k' := by
  induction m with
  | nil =>
      simp only [mapSet]
      rw [mapGet_cons, if_neg (by simpa using h)]
  | cons p rest ih =>
      by_cases hp : p.1 = k
      · simp only [mapSet, beq_iff_eq, hp, if_true]
        rw [mapGet_cons, if_neg (by simpa using h), mapGet_cons,
          if_neg (by simp only [hp, beq_iff_eq]; exact h)]
      · simp only [mapSet, beq_iff_eq, hp, if_false]
        rw [mapGet_cons, mapGet_cons]
        by_cases hp' : (p.1 == k') = true
        · rw [if_pos hp', if_pos hp']
        · rw [if_neg hp', if_neg hp']
          exact ih

theorem mapGetD_mapSet_self {κ α : Type} [BEq κ] [LawfulBEq κ]
    (m : List (κ × α)) (k : κ) (v d : α) :
    mapGetD (mapSet m k v) k d = v := by
  simp [mapGetD, mapGet_mapSet_self]

theorem mapGetD_mapSet_ne {κ α : Type} [BEq κ] [LawfulBEq κ]
    (m : List (κ × α)) (k k' : κ) (v d : α) (h : k ≠ k') :
    mapGetD (mapSet m k v) k' d = mapGetD m k' d := by
  simp [mapGetD, mapGet_mapSet_ne _ _ _ _ h]

theorem mapSet_mapSet_self {κ α : Type} [BEq κ] [LawfulBEq κ]
    (m : List (κ × α)) (k : κ) (v w : α) :
    mapSet (mapSet m k v) k w = mapSet m k w := by
  induction m with
  | nil => simp [mapSet]
  | cons p rest ih =>
      by_cases h : p.1 = k
      · simp [mapSet, h]
      · simp [mapSet, h, ih]

theorem mapGet_mapDelete_self {κ α : Type} [BEq κ] [LawfulBEq κ]
    (m : List (κ × α)) (k : κ) : mapGet (mapDelete m k) k = none := by
  induction m with
  | nil => rfl
  | cons p rest ih =>
      by_cases h : (p.1 == k) = true
      · simp only [mapDelete, List.filter_cons, h, Bool.not_true, if_false]
        exact ih
      · simp only [mapDelete, List.filter_cons, h, Bool.not_false, if_true]
        rw [mapGet_cons, if_neg h]
        exact ih

theorem find?_map_of_pred_inv {α : Type} (l : List α) (p : α → Bool)
    (f : α → α) (hf : ∀ a, p (f a) = p a) {a : α} (h : l.find? p = some a) :
    (l.map f).find? p = some (f a) := by
  induction l with
  | nil => simp at h
  | cons x xs ih =>
      by_cases hx : p x = true
      · rw [List.find?_cons_of_pos _ hx] at h
        injection h with h; subst h
        simp [List.find?_cons_of_pos, hf, hx]
      · rw [List.find?_cons_of_neg _ (by simpa using hx)] at h
        have : p (f x) = false := by rw [hf]; simpa using hx
        simp only [List.map_cons]
        rw [List.find?_cons_of_neg _ (by simp [this])]
        exact ih h

theorem countP_filter_not {α : Type} (l : List α) (p : α → Bool) :
    (l.filter (fun a => !(p a))).countP p = 0 := by
  induction l with
  | nil => simp
  | cons x xs ih =>
      by_cases hx : p x = true
      · simp [List.filter, hx, ih]
      · simp only [List.filter, hx, Bool.not_false]
        rw [List.countP_cons]
        simp [hx, ih]

theorem filter_filter_not {α : Type} (l : List α) (p q : α → Bool)
    (h : ∀ a, q a = true → p a = false) :
    ((l.filter (fun a => !(p a))).filter q) = l.filter q := by
  induction l with
  | nil => simp
  | cons x xs ih =>
      by_cases hx : p x = true
      · have hq : q x = false := by
          by_contra hq
          have := h x (by simpa using hq)
          simp [this] at hx
        simp [List.filter, hx, hq, ih]
      · simp only [List.filter, hx, Bool.not_false]
        cases hq : q x <;> simp [List.filter, hq, ih]

theorem countP_filter_not_le {α : Type} (l : List α) (p q : α → Bool) :
    (l.filter (fun a => !(q a))).countP p ≤ l.countP p := by
  induction l with
  | nil => simp
  | cons x xs ih =>
      by_cases hx : q x = true
      · simp only [List.filter, hx, Bool.not_true]
        rw [List.countP_cons]
        omega
      · simp only [List.filter, hx, Bool.not_false]
        rw [List.countP_cons, List.countP_cons]
        omega

/-! ## Claim theorems -/

/-- C1 (counterexample): the chat screen already holds the envelope with
messageId 1 (exactly one copy); delivering a `new-message` event for this
chat carrying messageId 1 leaves TWO envelopes with that id, not one —
the handler appends without any duplicate check. -/
theorem C1_counterexample :
    exampleClientMessages.countP (fun m => m.id == 1) = 1 ∧
    (messageHandler 5 0 exampleNewMessageData exampleClientMessages).countP
        (fun m => m.id == 1) = 2 ∧
    ¬ (messageHandler 5 0 exampleNewMessageData exampleClientMessages).countP
        (fun m => m.id == 1) = 1 := by
  refine ⟨by decide, by decide, by decide⟩

/-- C1 (amended): the client's `new-message` handler filters only on the
chatId and appends unconditionally; delivering an event for the screen's
chat always increases the number of held envelopes with that messageId by
one, so a duplicate delivery duplicate-inserts rather than no-ops. -/
theorem C1_amended (screenChatId : ChatId) (currentUser : UserId)
    (data : NewMessageData) (messages : List ClientMessage)
    (h : data.chatId = screenChatId) :
    (messageHandler screenChatId currentUser data messages).countP
        (fun m => m.id == data.messageId)
      = messages.countP (fun m => m.id == data.messageId) + 1 := by
  simp [messageHandler, h, List.countP_append, List.countP_cons]

/-- Witness for C1 (amended) at the concrete fixture. -/
theorem C1_amended_witness :
    (messageHandler 5 0 exampleNewMessageData exampleClientMessages).countP
        (fun m => m.id == exampleNewMessageData.messageId)
      = exampleClientMessages.countP
          (fun m => m.id == exampleNewMessageData.messageId) + 1 :=
  C1_amended 5 0 exampleNewMessageData exampleClientMessages rfl

/-- C3 (counterexample): both connections 10 and 20 are subscribed to
chat 1's room, yet when connection 10 sends via the `send-message` socket
handler the `new-message` event reaches only connection 20 — the sender's
own connection is excluded (`socket.to`, not `io.to`), so it receives no
echo. -/
theorem C3_counterexample :
    10 ∈ roomMembers exampleConns 1 ∧
    10 ∉ sendMessageSocketRecipients exampleConns 10 1 ∧
    sendMessageSocketRecipients exampleConns 10 1 = [20] := by
  refine ⟨by decide, by decide, by decide⟩

/-- C3 (amended): the HTTP send path (`io.to`) delivers `new-message` to
every connection subscribed to the chat's room, the sender's included;
the `send-message` socket handler (`socket.to`) delivers to every
subscribed connection except the sender's own, which receives no echo. -/
theorem C3_amended (conns : List (ConnId × ServerConn)) (chatId : ChatId)
    (emitter x : ConnId) :
    (x ∈ sendMessageSocketRecipients conns emitter chatId ↔
      x ∈ roomMembers conns chatId ∧ x ≠ emitter) ∧
    (x ∈ sendMessageRouteRecipients conns chatId ↔
      x ∈ roomMembers conns chatId) := by
  constructor
  · simp [sendMessageSocketRecipients, socketToRecipients, List.mem_filter]
  · exact Iff.rfl

/-- C5 (counterexample): a client that joined chats 1 and 2 holds the
room set [1, 2]; after a drop and reconnect, the `connect` handler's only
emit is `authenticate`, so the new server-side connection's room set is
empty — no previously held subscription is re-joined. -/
theorem C5_counterexample :
    serverRoomsAfter [ClientEvent.joinChat 1, ClientEvent.joinChat 2] = [1, 2] ∧
    serverRoomsAfter ((onConnectHandler ⟨true, false, 2, some 8000⟩ "tok").2) = [] ∧
    ([] : List ChatId) ≠ [1, 2] := by
  refine ⟨by decide, by decide, by decide⟩

/-- C5 (amended): on re-entering the connected state after a reconnect
the service marks itself connected, resets the attempt counter and
re-emits only `authenticate`; it re-joins no rooms, so the client holds
no room subscriptions until some screen explicitly calls `joinChat`
again. -/
theorem C5_amended (s : SocketServiceState) (token : String) :
    serverRoomsAfter ((onConnectHandler s token).2) = [] ∧
    (onConnectHandler s token).1.isConnected = true ∧
    (onConnectHandler s token).1.reconnectAttempts = 0 ∧
    (onConnectHandler s token).2 = [ClientEvent.authenticate token] :=
  ⟨rfl, rfl, rfl, rfl⟩

/-- C6 (counterexample): a connection that never authenticated
(`userId = none`) issues `join-chat 7`; the handler adds it to the room's
subscriber set anyway — there is no `Unauthenticated` failure path. -/
theorem C6_counterexample :
    (⟨none, []⟩ : ServerConn).userId = none ∧
    (joinChatHandler ⟨none, []⟩ 7).rooms = [7] := by
  refine ⟨rfl, by decide⟩

/-- C6 (amended): `join-chat` adds the connection to the room's
subscriber set regardless of authentication state (the handler never
consults `socket.userId` and has no failure path); the add is
idempotent. -/
theorem C6_amended (s : ServerConn) (c : ChatId) :
    c ∈ (joinChatHandler s c).rooms ∧
    joinChatHandler (joinChatHandler s c) c = joinChatHandler s c ∧
    (joinChatHandler s c).userId = s.userId := by
  refine ⟨?_, ?_, ?_⟩ <;> by_cases h : c ∈ s.rooms <;>
    simp [joinChatHandler, socketJoin, h]

/-- C7 (counterexample): with the attempt count at the bound (3), the
controller does nothing at all: `scheduleReconnect` returns the state
unchanged — no retry scheduled, but also no transition to the
configuration `disconnect()` produces (the socket is still held) and no
terminal failure surfaced; its observable outputs are exhausted by the
unchanged state. -/
theorem C7_counterexample :
    scheduleReconnect ⟨true, false, 3, none⟩ = ⟨true, false, 3, none⟩ ∧
    (scheduleReconnect ⟨true, false, 3, none⟩).socketPresent = true ∧
    (disconnectService ⟨true, false, 3, none⟩).socketPresent = false := by
  refine ⟨by decide, by decide, by decide⟩

/-- C7 (amended): below the bound of 3 attempts the retry is scheduled
after exactly `reconnectDelay * 2 ^ attempt` milliseconds with no cap
applied; once the attempt count reaches the bound, no retry is scheduled
and nothing else changes — the controller neither transitions to a
disconnected configuration nor surfaces a terminal failure. -/
theorem C7_amended (s : SocketServiceState) :
    (s.reconnectAttempts < maxReconnectAttempts →
      scheduleReconnect s = { s with reconnectTimer := some (reconnectDelay * 2 ^ s.reconnectAttempts) }) ∧
    (maxReconnectAttempts ≤ s.reconnectAttempts →
      scheduleReconnect s = { s with reconnectTimer := none }) := by
  constructor
  · intro h
    simp [scheduleReconnect, h]
  · intro h
    simp [scheduleReconnect, Nat.not_lt.mpr h]

/-- Witness for C7 (amended): at one attempt the scheduled delay is
2000 * 2 = 4000 ms; at five attempts nothing is scheduled. -/
theorem C7_amended_witness :
    scheduleReconnect ⟨true, false, 1, some 99⟩ = ⟨true, false, 1, some 4000⟩ ∧
    scheduleReconnect ⟨true, false, 5, some 99⟩ = ⟨true, false, 5, none⟩ := by
  constructor
  · rw [(C7_amended ⟨true, false, 1, some 99⟩).1 (by decide)]
    decide
  · rw [(C7_amended ⟨true, false, 5, some 99⟩).2 (by decide)]

theorem mem_keys_mapSet {κ α : Type} [BEq κ] [LawfulBEq κ]
    (m : List (κ × α)) (k : κ) (v : α) (x : κ)
    (hx : x ∈ (mapSet m k v).map Prod.fst) : x = k ∨ x ∈ m.map Prod.fst := by
  induction m with
  | nil => simpa [mapSet] using hx
  | cons p rest ih =>
      by_cases h : p.1 = k
      · simp only [mapSet, beq_iff_eq, h, if_true, List.map_cons,
          List.mem_cons] at hx ⊢
        rcases hx with hx | hx
        · exact .inl hx
        · exact .inr (.inr hx)
      · simp only [mapSet, beq_iff_eq, h, if_false, List.map_cons,
          List.mem_cons] at hx ⊢
        rcases hx with hx | hx
        · exact .inr (.inl hx)
        · rcases ih hx with h1 | h1
          · exact .inl h1
          · exact .inr (.inr h1)

theorem keys_nodup_mapSet {κ α : Type} [BEq κ] [LawfulBEq κ]
    (m : List (κ × α)) (k : κ) (v : α) (hm : (m.map Prod.fst).Nodup) :
    ((mapSet m k v).map Prod.fst).Nodup := by
  induction m with
  | nil => simp [mapSet]
  | cons p rest ih =>
      simp only [List.map_cons, List.nodup_cons] at hm
      by_cases h : p.1 = k
      · simp only [mapSet, beq_iff_eq, h, if_true, List.map_cons, List.nodup_cons]
        exact ⟨h ▸ hm.1, hm.2⟩
      · simp only [mapSet, beq_iff_eq, h, if_false, List.map_cons, List.nodup_cons]
        refine ⟨fun hmem => ?_, ih hm.2⟩
        rcases mem_keys_mapSet rest k v p.1 hmem with h1 | h1
        · exact h h1
        · exact hm.1 h1

theorem filter_mapSet_self {κ α : Type} [BEq κ] [LawfulBEq κ]
    (m : List (κ × α)) (k : κ) (v : α) (hm : (m.map Prod.fst).Nodup) :
    (mapSet m k v).filter (fun p => p.1 == k) = [(k, v)] := by
  induction m with
  | nil => simp [mapSet]
  | cons p rest ih =>
      simp only [List.map_cons, List.nodup_cons] at hm
      by_cases h : p.1 = k
      · simp only [mapSet, beq_iff_eq, h, if_true, List.filter_cons,
          beq_self_eq_true, if_true]
        have hempty : rest.filter (fun p => p.1 == k) = [] := by
          rw [List.filter_eq_nil_iff]
          intro q hq
          simp only [beq_iff_eq]
          intro hqk
          exact hm.1 (h ▸ hqk ▸ List.mem_map_of_mem Prod.fst hq)
        simp [hempty]
      · simp only [mapSet, beq_iff_eq, h, if_false, List.filter_cons]
        exact ih hm.2

/-- C9 (counterexample): user 5 authenticates connection 10, then a
second device authenticates connection 20: the registry (a `Map` keyed
by userId) now binds 5 to connection 20 only — connection 10 was
evicted, not retained.  Then socket 10 disconnects: although the second
device's connection is still live, the handler deletes user 5's entry
entirely (dropping connection 20's registration) and broadcasts an
offline presence change. -/
theorem C9_counterexample :
    authenticateHandler [] none (some 5) 10 = ([(5, 10)], some 5) ∧
    (authenticateHandler [(5, 10)] none (some 5) 20).1 = [(5, 20)] ∧
    mapGet (authenticateHandler [(5, 10)] none (some 5) 20).1 5 ≠ some 10 ∧
    disconnectHandler [(5, 20)] (some 5) = ([], [ServerEvent.userStatusChange 5 false]) := by
  refine ⟨by decide, by decide, by decide, by decide⟩

/-- C9 (amended): the registry maps each userId to at most one
connectionId — after two devices authenticate as the same user, the
registry holds exactly one binding for that user, namely the later
connection; and deregistering any socket bound to that user removes the
user's entry entirely and always broadcasts an offline presence change,
regardless of whether other connections of that user are still live. -/
theorem C9_amended (m : List (UserId × ConnId)) (pu pu' : Option UserId)
    (u : UserId) (c1 c2 : ConnId) (hm : (m.map Prod.fst).Nodup) :
    ((authenticateHandler (authenticateHandler m pu (some u) c1).1 pu' (some u) c2).1.filter
        (fun p => p.1 == u)) = [(u, c2)] ∧
    (disconnectHandler (authenticateHandler (authenticateHandler m pu (some u) c1).1 pu' (some u) c2).1
        (some u)).2 = [ServerEvent.userStatusChange u false] ∧
    mapGet (disconnectHandler (authenticateHandler (authenticateHandler m pu (some u) c1).1 pu' (some u) c2).1
        (some u)).1 u = none := by
  refine ⟨?_, rfl, ?_⟩
  · exact filter_mapSet_self _ _ _ (keys_nodup_mapSet _ _ _ hm)
  · exact mapGet_mapDelete_self _ _

/-- Witness for C9 (amended) with one unrelated registration present. -/
theorem C9_amended_witness :
    ((authenticateHandler (authenticateHandler [(9, 30)] none (some 5) 10).1 none (some 5) 20).1.filter
        (fun p => p.1 == 5)) = [(5, 20)] ∧
    (disconnectHandler (authenticateHandler (authenticateHandler [(9, 30)] none (some 5) 10).1 none (some 5) 20).1
        (some 5)).2 = [ServerEvent.userStatusChange 5 false] ∧
    mapGet (disconnectHandler (authenticateHandler (authenticateHandler [(9, 30)] none (some 5) 10).1 none (some 5) 20).1
        (some 5)).1 5 = none :=
  C9_amended [(9, 30)] none none 5 10 20 (by decide)

/-- C10: `addReaction` leaves exactly one reaction by the reacting user
(a repeat reaction replaces rather than accumulates), `removeReaction`
leaves none, both leave every other user's reactions untouched, and
`addReaction` preserves the at-most-one-reaction-per-user invariant. -/
theorem C10_reactions (m : Message) (u v : UserId) (e : String) (t : Nat)
    (hv : v ≠ u) :
    ((addReaction m u e t).reactions.countP (fun r => r.user == u) = 1) ∧
    ((addReaction m u e t).reactions.filter (fun r => r.user == v)
        = m.reactions.filter (fun r => r.user == v)) ∧
    ((removeReaction m u).reactions.countP (fun r => r.user == u) = 0) ∧
    ((removeReaction m u).reactions.filter (fun r => r.user == v)
        = m.reactions.filter (fun r => r.user == v)) ∧
    (∀ w, m.reactions.countP (fun r => r.user == w) ≤ 1 →
      (addReaction m u e t).reactions.countP (fun r => r.user == w) ≤ 1) := by
  have hqp : ∀ r : Reaction, (r.user == v) = true → (r.user == u) = false := by
    intro r hr
    rw [beq_iff_eq] at hr
    rw [beq_eq_false_iff_ne, hr]
    exact hv
  refine ⟨?_, ?_, ?_, ?_, ?_⟩
  · simp only [addReaction, List.countP_append]
    rw [countP_filter_not]
    simp [List.countP_cons]
  · simp only [addReaction, List.filter_append]
    rw [filter_filter_not _ _ _ hqp]
    have : (([{ user := u, emoji := e, createdAt := t }] : List Reaction).filter
        (fun r => r.user == v)) = [] := by
      simp [List.filter_cons, Ne.symm hv]
    rw [this, List.append_nil]
  · exact countP_filter_not _ _
  · exact filter_filter_not _ _ _ hqp
  · intro w hw
    by_cases hwu : w = u
    · subst hwu
      simp only [addReaction, List.countP_append]
      rw [countP_filter_not]
      simp [List.countP_cons]
    · simp only [addReaction, List.countP_append]
      have huw : (u == w) = false := by
        rw [beq_eq_false_iff_ne]
        exact fun hh => hwu hh.symm
      have h1 : (([{ user := u, emoji := e, createdAt := t }] : List Reaction).countP
          (fun r => r.user == w)) = 0 := by
        simp [List.countP_cons, huw]
      rw [h1]
      have h2 := countP_filter_not_le m.reactions
        (fun r => r.user == w) (fun r => r.user == u)
      omega

/-- Witness for C10 at a message carrying a reaction by user 7, with
user 5 reacting. -/
theorem C10_reactions_witness :
    ((addReaction exampleReactedMessage 5 "y" 1).reactions.countP (fun r => r.user == 5) = 1) ∧
    ((addReaction exampleReactedMessage 5 "y" 1).reactions.filter (fun r => r.user == 7)
        = exampleReactedMessage.reactions.filter (fun r => r.user == 7)) ∧
    ((removeReaction exampleReactedMessage 5).reactions.countP (fun r => r.user == 5) = 0) ∧
    ((removeReaction exampleReactedMessage 5).reactions.filter (fun r => r.user == 7)
        = exampleReactedMessage.reactions.filter (fun r => r.user == 7)) ∧
    ((addReaction exampleReactedMessage 5 "y" 1).reactions.countP (fun r => r.user == 7) ≤ 1) := by
  have h := C10_reactions exampleReactedMessage 5 7 "y" 1 (by decide)
  exact ⟨h.1, h.2.1, h.2.2.1, h.2.2.2.1, h.2.2.2.2 7 (by decide)⟩

theorem editRequest_deleted (m : Message) (r : UserId) (content : String)
    (t : Nat) (h1 : m.isDeleted = true) (h2 : m.sender = r)
    (h3 : (strTrim content).length ≠ 0) :
    editMessageRequest m r content t = Except.error EditError.messageDeletedConflict := by
  simp [editMessageRequest, h1, h2, h3]

theorem deleteRequest_ok_inv (m : Message) (chat : Chat) (r : UserId)
    (t : Nat) (m' : Message)
    (h : deleteMessageRequest m chat r t = Except.ok m') : m' = softDelete m r t := by
  simp only [deleteMessageRequest] at h
  split at h
  · exact absurd h (by simp)
  · split at h
    · exact absurd h (by simp)
    · injection h with h
      exact h.symm

theorem editRequest_ok_inv (m : Message) (r : UserId) (content : String)
    (t : Nat) (m1 : Message)
    (h : editMessageRequest m r content t = Except.ok m1) :
    m1 = editMessage m (strTrim content) t := by
  simp only [editMessageRequest] at h
  split at h
  · exact absurd h (by simp)
  · split at h
    · exact absurd h (by simp)
    · split at h
      · exact absurd h (by simp)
      · injection h with h
        exact h.symm

/-- C4 (counterexample): message 1 has content "a"; its sender edits it
to "b" (accepted), then deletes it (accepted).  The final persisted
state has `isDeleted = true` but the edit WAS applied (`content = "b"`),
so with this arrival order the claim's "the edit not applied" fails. -/
theorem C4_counterexample :
    editMessageRequest exampleMessage 0 "b" 5
      = Except.ok (editMessage exampleMessage (strTrim "b") 5) ∧
    deleteMessageRequest (editMessage exampleMessage (strTrim "b") 5) exampleChat 0 6
      = Except.ok (softDelete (editMessage exampleMessage (strTrim "b") 5) 0 6) ∧
    (softDelete (editMessage exampleMessage (strTrim "b") 5) 0 6).isDeleted = true ∧
    (softDelete (editMessage exampleMessage (strTrim "b") 5) 0 6).content = "b" ∧
    exampleMessage.content ≠ "b" ∧
    editMessageRequest (softDelete exampleMessage 0 6) 0 "b" 7
      = Except.error EditError.messageDeletedConflict := by
  refine ⟨rfl, rfl, rfl, by decide, by decide, rfl⟩

/-- C4 (amended): an edit of an already soft-deleted message is rejected
with the `messageDeletedConflict` kind (the persisted message is
untouched, the request returning no new document), so delete-then-edit
ends with `isDeleted = true` and the original content; but in the
edit-then-delete order both requests succeed, and the final state has
`isDeleted = true` WITH the edit applied. -/
theorem C4_amended :
    (∀ (m : Message) (requester : UserId) (content : String) (t : Nat),
      m.isDeleted = true → m.sender = requester → (strTrim content).length ≠ 0 →
        editMessageRequest m requester content t
          = Except.error EditError.messageDeletedConflict) ∧
    (∀ (m : Message) (chat : Chat) (requester requester' : UserId)
        (content : String) (t t' : Nat) (m' : Message),
      deleteMessageRequest m chat requester t = Except.ok m' →
        m'.isDeleted = true ∧ m'.content = m.content ∧
        (m.sender = requester' → (strTrim content).length ≠ 0 →
          editMessageRequest m' requester' content t'
            = Except.error EditError.messageDeletedConflict)) ∧
    (∀ (m : Message) (chat : Chat) (requester : UserId) (content : String)
        (t t' : Nat) (m1 m2 : Message),
      editMessageRequest m requester content t = Except.ok m1 →
      deleteMessageRequest m1 chat requester t' = Except.ok m2 →
        m2.isDeleted = true ∧ m2.content = strTrim content ∧ m2.isEdited = true) := by
  refine ⟨editRequest_deleted, ?_, ?_⟩
  · intro m chat requester requester' content t t' m' hdel
    have hm' := deleteRequest_ok_inv m chat requester t m' hdel
    subst hm'
    refine ⟨rfl, rfl, fun hs hc => ?_⟩
    exact editRequest_deleted _ _ _ _ rfl hs hc
  · intro m chat requester content t t' m1 m2 hedit hdel
    have hm1 := editRequest_ok_inv m requester content t m1 hedit
    have hm2 := deleteRequest_ok_inv m1 chat requester t' m2 hdel
    subst hm1
    subst hm2
    exact ⟨rfl, rfl, rfl⟩

/-- Witness for C4 (amended) at the concrete fixture. -/
theorem C4_amended_witness :
    editMessageRequest (softDelete exampleMessage 0 6) 0 "b" 7
      = Except.error EditError.messageDeletedConflict ∧
    (softDelete (editMessage exampleMessage (strTrim "b") 5) 0 6).isDeleted = true ∧
    (softDelete (editMessage exampleMessage (strTrim "b") 5) 0 6).content = strTrim "b" := by
  obtain ⟨h1, _, h3⟩ := C4_amended
  have h3' := h3 exampleMessage exampleChat 0 "b" 5 6
    (editMessage exampleMessage (strTrim "b") 5)
    (softDelete (editMessage exampleMessage (strTrim "b") 5) 0 6) rfl rfl
  exact ⟨h1 (softDelete exampleMessage 0 6) 0 "b" 7 rfl rfl (by decide),
    h3'.1, h3'.2.1⟩

theorem foldl_increment_id (l : List UserId) (c : Chat) :
    (List.foldl incrementUnreadCount c l).id = c.id := by
  induction l generalizing c with
  | nil => rfl
  | cons p rest ih => exact ih (incrementUnreadCount c p)

theorem foldl_increment_not_mem (l : List UserId) (u : UserId) (c : Chat)
    (h : u ∉ l) :
    mapGetD (List.foldl incrementUnreadCount c l).unreadCount u 0
      = mapGetD c.unreadCount u 0 := by
  induction l generalizing c with
  | nil => rfl
  | cons p rest ih =>
      have hpu : p ≠ u := fun hh => h (hh ▸ List.mem_cons_self p rest)
      have hrest : u ∉ rest := fun hm => h (List.mem_cons_of_mem p hm)
      simp only [List.foldl_cons]
      rw [ih (incrementUnreadCount c p) hrest]
      exact mapGetD_mapSet_ne _ _ _ _ _ hpu

theorem foldl_increment_mem (l : List UserId) (u : UserId) (c : Chat)
    (h : u ∈ l) (hn : l.Nodup) :
    mapGetD (List.foldl incrementUnreadCount c l).unreadCount u 0
      = mapGetD c.unreadCount u 0 + 1 := by
  induction l generalizing c with
  | nil => exact absurd h (List.not_mem_nil u)
  | cons p rest ih =>
      simp only [List.foldl_cons]
      rcases List.mem_cons.mp h with rfl | hur
      · have hrest : u ∉ rest := (List.nodup_cons.mp hn).1
        rw [foldl_increment_not_mem rest u _ hrest]
        exact mapGetD_mapSet_self _ _ _ _
      · have hpu : p ≠ u :=
          fun hh => (List.nodup_cons.mp hn).1 (hh ▸ hur)
        rw [ih (incrementUnreadCount c p) hur (List.nodup_cons.mp hn).2]
        exact congrArg (· + 1) (mapGetD_mapSet_ne _ _ _ _ _ hpu)

theorem incrementSaves_messages (l : List UserId) (c : Chat) (db : ChatDB) :
    (List.foldl applyOp db (incrementSaves c l).1).messages = db.messages := by
  induction l generalizing c db with
  | nil => rfl
  | cons p rest ih =>
      simp only [incrementSaves, List.foldl_cons]
      rw [ih (incrementUnreadCount c p)]
      rfl

theorem foldl_applyOp_saves (l : List UserId) (c : Chat) (db : ChatDB)
    (h : l ≠ []) :
    (List.foldl applyOp db (incrementSaves c l).1).chats
      = db.chats.map
          (fun c' => if c'.id == c.id then List.foldl incrementUnreadCount c l else c') := by
  induction l generalizing c db with
  | nil => exact absurd rfl h
  | cons p rest ih =>
      by_cases hr : rest = []
      · subst hr
        simp only [incrementSaves, List.foldl_cons, List.foldl_nil, applyOp]
        rfl
      · simp only [incrementSaves, List.foldl_cons]
        rw [ih (incrementUnreadCount c p) _ hr]
        simp only [applyOp, List.map_map]
        refine congrArg (fun f => List.map f db.chats) (funext fun c' => ?_)
        by_cases hid : c'.id = c.id
        · simp [Function.comp, incrementUnreadCount, hid]
        · simp [Function.comp, incrementUnreadCount, hid]

theorem sendMessageRoute_ok_inv (db : ChatDB) (sender : UserId)
    (chatId : ChatId) (content : String) (newId : MessageId) (t : Nat)
    (out : SendOutcome) (chat : Chat)
    (hroute : sendMessageRoute db sender chatId content newId t = Except.ok out)
    (hfind : db.chats.find? (fun c => c.id == chatId) = some chat) :
    out.ops = PersistOp.createMessage
        { id := newId, chat := chatId, sender := sender, content := content }
      :: (incrementSaves chat
            (chat.participants.filter (fun p => !(p == sender)))).1 := by
  simp only [sendMessageRoute, hfind] at hroute
  split at hroute
  · exact absurd hroute (by simp)
  · split at hroute
    · exact absurd hroute (by simp)
    · split at hroute
      · exact absurd hroute (by simp)
      · split at hroute
        · exact absurd hroute (by simp)
        · injection hroute with h
          rw [← h]

/-- C2 (amended): on a successful send, the handler's persistence trace,
replayed against the store, appends exactly the new message and leaves
the chat with every other participant's unread counter incremented by
exactly one and the sender's counter unchanged — but through separate
`chat.save()` operations issued after the message insert, not within one
transaction (see the counterexample). -/
theorem C2_amended (db : ChatDB) (sender : UserId) (chatId : ChatId)
    (content : String) (newId : MessageId) (t : Nat) (out : SendOutcome)
    (chat : Chat)
    (hroute : sendMessageRoute db sender chatId content newId t = Except.ok out)
    (hfind : db.chats.find? (fun c => c.id == chatId) = some chat)
    (hnodup : chat.participants.Nodup) :
    ((List.foldl applyOp db out.ops).messages
        = db.messages ++ [{ id := newId, chat := chatId, sender := sender, content := content }]) ∧
    ∀ fc, (List.foldl applyOp db out.ops).chats.find? (fun c => c.id == chatId) = some fc →
      (∀ u ∈ chat.participants, u ≠ sender →
        mapGetD fc.unreadCount u 0 = mapGetD chat.unreadCount u 0 + 1) ∧
      mapGetD fc.unreadCount sender 0 = mapGetD chat.unreadCount sender 0 := by
  have hops := sendMessageRoute_ok_inv db sender chatId content newId t out chat hroute hfind
  have hchatid : (chat.id == chatId) = true := by
    have := List.find?_some hfind
    simpa using this
  have hmem_others : ∀ u, u ∈ chat.participants → u ≠ sender →
      u ∈ chat.participants.filter (fun p => !(p == sender)) := by
    intro u hu hne
    rw [List.mem_filter]
    exact ⟨hu, by simp [hne]⟩
  have hsender_not : sender ∉ chat.participants.filter (fun p => !(p == sender)) := by
    intro hs
    have := (List.mem_filter.mp hs).2
    simp at this
  constructor
  · rw [hops, List.foldl_cons, incrementSaves_messages]
    rfl
  · intro fc hfc
    by_cases hothers : chat.participants.filter (fun p => !(p == sender)) = []
    · rw [hops, hothers] at hfc
      simp only [incrementSaves, List.foldl_cons, List.foldl_nil] at hfc
      have : (applyOp db (PersistOp.createMessage
          { id := newId, chat := chatId, sender := sender, content := content })).chats
          = db.chats := rfl
      rw [this, hfind] at hfc
      injection hfc with hfc
      subst hfc
      refine ⟨fun u hu hne => absurd (hmem_others u hu hne) (by simp [hothers]), rfl⟩
    · rw [hops, List.foldl_cons] at hfc
      rw [foldl_applyOp_saves _ _ _ hothers] at hfc
      have hchats : (applyOp db (PersistOp.createMessage
          { id := newId, chat := chatId, sender := sender, content := content })).chats
          = db.chats := rfl
      rw [hchats] at hfc
      have hf : ∀ a : Chat,
          ((if a.id == chat.id then
              List.foldl incrementUnreadCount chat
                (chat.participants.filter (fun p => !(p == sender)))
            else a).id == chatId) = (a.id == chatId) := by
        intro a
        by_cases ha : a.id = chat.id
        · rw [if_pos (by simp [ha]), foldl_increment_id]
          simp [ha]
        · rw [if_neg (by simp [ha])]
      have hfind2 := find?_map_of_pred_inv db.chats (fun c => c.id == chatId)
        (fun a => if a.id == chat.id then
            List.foldl incrementUnreadCount chat
              (chat.participants.filter (fun p => !(p == sender)))
          else a) hf hfind
      rw [hfc] at hfind2
      injection hfind2 with hfind2
      subst hfind2
      simp only [beq_self_eq_true, if_true]
      refine ⟨fun u hu hne => ?_, ?_⟩
      · rw [foldl_increment_mem _ u chat (hmem_others u hu hne)
          (hnodup.filter _)]
      · rw [foldl_increment_not_mem _ sender chat hsender_not]

/-- Witness for C2 (amended): user 5 sends "hi" into `exampleDB`; after
replaying the trace user 6's counter went 0 to 1 and user 5's stayed 0. -/
theorem C2_amended_witness :
    ((List.foldl applyOp exampleDB exampleSendOutcome.ops).messages
        = exampleDB.messages ++ [{ id := 7, chat := 1, sender := 5, content := "hi" }]) ∧
    mapGetD exampleIncrementedChat.unreadCount 6 0 = mapGetD exampleChat.unreadCount 6 0 + 1 ∧
    mapGetD exampleIncrementedChat.unreadCount 5 0 = mapGetD exampleChat.unreadCount 5 0 := by
  obtain ⟨h1, h2⟩ := C2_amended exampleDB 5 1 "hi" 7 100 exampleSendOutcome
    exampleChat rfl rfl (by decide)
  have h3 := h2 exampleIncrementedChat (by decide)
  exact ⟨h1, h3.1 6 (by decide) (by decide), h3.2⟩

/-- C2 (counterexample): for a concrete send, the handler's persistence
trace is two separate operations, not one transaction; after only the
first (the message insert) the message is persisted while recipient 6's
unread counter is still 0 — an observable intermediate state that a
single-transaction update could never expose.  Replaying the full trace
then brings the counter to 1. -/
theorem C2_counterexample :
    isSingleTransaction (opsOf (sendMessageRoute exampleDB 5 1 "hi" 7 100)) = false ∧
    (opsOf (sendMessageRoute exampleDB 5 1 "hi" 7 100)).length = 2 ∧
    ((List.foldl applyOp exampleDB
        ((opsOf (sendMessageRoute exampleDB 5 1 "hi" 7 100)).take 1)).messages.any
          (fun m => m.id == 7)) = true ∧
    ((List.foldl applyOp exampleDB
        ((opsOf (sendMessageRoute exampleDB 5 1 "hi" 7 100)).take 1)).chats.find?
          (fun c => c.id == 1)) = some exampleChat ∧
    mapGetD exampleChat.unreadCount 6 0 = 0 ∧
    ((List.foldl applyOp exampleDB
        (opsOf (sendMessageRoute exampleDB 5 1 "hi" 7 100))).chats.find?
          (fun c => c.id == 1)) = some exampleIncrementedChat ∧
    mapGetD exampleIncrementedChat.unreadCount 6 0 = 1 := by
  refine ⟨by decide, by decide, by decide, by decide, by decide, by decide, by decide⟩

theorem markChatAsRead_idem (msgs : List Message) (c : ChatId) (u : UserId)
    (t t' : Nat) :
    markChatAsRead (markChatAsRead msgs c u t) c u t' = markChatAsRead msgs c u t := by
  unfold markChatAsRead
  rw [List.map_map]
  refine congrArg (fun f => List.map f msgs) (funext fun m => ?_)
  simp only [Function.comp]
  by_cases h : (m.chat == c && !(m.sender == u) && !m.isDeleted
      && !(m.readBy.any (fun r => r.user == u))) = true
  · rw [if_pos h, if_neg (by simp [List.any_append])]
  · rw [if_neg h, if_neg h]

theorem resetChats_idem (cs : List Chat) (c : ChatId) (u : UserId) :
    ((cs.map (fun ch => if ch.id == c then resetUnreadCount ch u else ch)).map
        (fun ch => if ch.id == c then resetUnreadCount ch u else ch))
      = cs.map (fun ch => if ch.id == c then resetUnreadCount ch u else ch) := by
  rw [List.map_map]
  refine congrArg (fun f => List.map f cs) (funext fun ch => ?_)
  simp only [Function.comp]
  by_cases h : (ch.id == c) = true
  · rw [if_pos h, if_pos (by simpa [resetUnreadCount] using h)]
    simp [resetUnreadCount, mapSet_mapSet_self]
  · rw [if_neg h, if_neg h]

theorem getMessagesRoute_ok_inv (db : ChatDB) (u : UserId) (c : ChatId)
    (t : Nat) (db1 : ChatDB) (ev1 : List ServerEvent) (chat : Chat)
    (hroute : getMessagesRoute db u c t = Except.ok (db1, ev1))
    (hfind : db.chats.find? (fun ch => ch.id == c) = some chat) :
    chat.participants.contains u = true ∧
    db1.messages = markChatAsRead db.messages c u t ∧
    db1.chats = db.chats.map (fun ch => if ch.id == c then resetUnreadCount ch u else ch) ∧
    ev1 = [ServerEvent.messagesRead c u t] := by
  simp only [getMessagesRoute, hfind] at hroute
  split at hroute
  · exact absurd hroute (by simp)
  · next hcond =>
      injection hroute with hpair
      have hdb := congrArg Prod.fst hpair
      have hev := congrArg Prod.snd hpair
      simp only at hdb hev
      refine ⟨by simpa using hcond, ?_, ?_, hev.symm⟩
      · rw [← hdb]
      · rw [← hdb]

/-- C8: a successful read of a chat resets the requester's unread
counter on the chat document to exactly 0, stamps the requester's read
marker on every other-sender non-deleted message of the chat, and emits
`messages-read` to the chat's room; and it is idempotent — running the
read again against the resulting store succeeds, changes no message or
counter state, and merely re-emits the event. -/
theorem C8_onChatRead (db : ChatDB) (u : UserId) (c : ChatId) (t t2 : Nat)
    (db1 : ChatDB) (ev1 : List ServerEvent) (chat : Chat)
    (hroute : getMessagesRoute db u c t = Except.ok (db1, ev1))
    (hfind : db.chats.find? (fun ch => ch.id == c) = some chat) :
    (∀ fc, db1.chats.find? (fun ch => ch.id == c) = some fc →
        mapGetD fc.unreadCount u 0 = 0) ∧
    (∀ m ∈ db1.messages, m.chat = c → m.sender ≠ u → m.isDeleted = false →
        m.readBy.any (fun r => r.user == u) = true) ∧
    ev1 = [ServerEvent.messagesRead c u t] ∧
    getMessagesRoute db1 u c t2 = Except.ok (db1, [ServerEvent.messagesRead c u t2]) := by
  obtain ⟨hcont, hmsgs, hchats, hev⟩ :=
    getMessagesRoute_ok_inv db u c t db1 ev1 chat hroute hfind
  have hresetid : ∀ ch : Chat,
      ((if ch.id == c then resetUnreadCount ch u else ch).id == c) = (ch.id == c) := by
    intro ch
    by_cases h : (ch.id == c) = true
    · rw [if_pos h]
      rw [h]
      simpa [resetUnreadCount] using h
    · rw [if_neg h]
  have hchatc : (chat.id == c) = true := by simpa using List.find?_some hfind
  have hfind1 : db1.chats.find? (fun ch => ch.id == c)
      = some (resetUnreadCount chat u) := by
    rw [hchats]
    have := find?_map_of_pred_inv db.chats (fun ch => ch.id == c)
      (fun ch => if ch.id == c then resetUnreadCount ch u else ch) hresetid hfind
    rw [this]
    simp only [hchatc, if_true]
  refine ⟨?_, ?_, hev, ?_⟩
  · intro fc hfc
    rw [hfind1] at hfc
    injection hfc with hfc
    subst hfc
    exact mapGetD_mapSet_self _ _ _ _
  · intro m hm hchat hsender hdel
    rw [hmsgs] at hm
    unfold markChatAsRead at hm
    rcases List.mem_map.mp hm with ⟨m0, hm0, hm0eq⟩
    by_cases hcondm : (m0.chat == c && !(m0.sender == u) && !m0.isDeleted
        && !(m0.readBy.any (fun r => r.user == u))) = true
    · rw [if_pos hcondm] at hm0eq
      subst hm0eq
      simp [List.any_append]
    · rw [if_neg hcondm] at hm0eq
      subst hm0eq
      simpa [hchat, hsender, hdel] using hcondm
  · have hmem : u ∈ chat.participants := List.mem_of_elem_eq_true hcont
    simp only [getMessagesRoute, hfind1]
    rw [if_neg (by simp [resetUnreadCount, hmem])]
    have hm2 : markChatAsRead db1.messages c u t2 = db1.messages := by
      rw [hmsgs, markChatAsRead_idem]
    have hc2 : db1.chats.map (fun ch => if ch.id == c then resetUnreadCount ch u else ch)
        = db1.chats := by
      rw [hchats, resetChats_idem]
    rw [hm2, hc2]

/-- Witness for C8 at the concrete store: reading chat 1 as user 5
resets the counter to 0, and re-reading the resulting store at a later
time returns it unchanged while re-emitting the event. -/
theorem C8_onChatRead_witness :
    mapGetD exampleResetChat.unreadCount 5 0 = 0 ∧
    getMessagesRoute exampleReadDB1 5 1 20
      = Except.ok (exampleReadDB1, [ServerEvent.messagesRead 1 5 20]) := by
  obtain ⟨h1, _, _, h4⟩ := C8_onChatRead exampleReadDB 5 1 10 20 exampleReadDB1
    [ServerEvent.messagesRead 1 5 10] exampleReadChat rfl rfl
  exact ⟨h1 exampleResetChat (by decide), h4⟩

end Chatty
